import Mathlib

/-!
# Verification of the purple-air-gui telemetry decoding layer

Shallow embedding of the sensor telemetry decoder of `src/sensor_data.rs`
and the polling/update logic of `src/main.rs`, with theorems settling the
specification claims.

Modelling conventions:
* JSON documents are association lists `List (String × Json)`; lookup takes
  the first matching key, mirroring serde-json field access (duplicate-key
  documents, which serde rejects, are outside the scope of every claim).
* Machine integers are `Nat`/`Int` with explicit range checks where the
  Rust code checks them (`u64`, `u32`, `i64` deserialization) and explicit
  `% 256` where the Rust code truncates (`number as u8`).
* Floating-point payloads (`f64` fields) are carried symbolically by the
  `JNum.float` constructor: the decoder performs no arithmetic on them, it
  only moves them, so a symbolic carrier is faithful for every claim here.
* `chrono`'s `NaiveDateTime::parse_from_str` with the fixed pattern
  `%Y/%m/%dT%H:%M:%S` is embedded concretely: numeric items skip leading
  (ASCII) whitespace and read at most 4 (year) / 2 (other fields) ASCII
  digits, the year may carry a sign (unbounded width when signed), literal
  items must match exactly, trailing input is an error, and the parsed
  fields must form a valid proleptic-Gregorian date and time (chrono
  additionally admits second 60 for leap seconds and years in
  [-262144, 262143]).
-/

/-- ASCII decimal digit test (Rust `u8::is_ascii_digit` on the bytes the
scanner consumes). -/
def isDig (c : Char) : Bool := 48 ≤ c.toNat && c.toNat ≤ 57

/-- Whitespace skipped by chrono before a numeric item (ASCII fragment of
Rust `char::is_whitespace`; no claim involves non-ASCII whitespace). -/
def isWs (c : Char) : Bool := c = ' ' || c = '\t' || c = '\n' || c = '\r'

/-- Numeric value of a digit run (most significant digit first). -/
def digsVal (l : List Char) : Nat := l.foldl (fun a c => a * 10 + (c.toNat - 48)) 0

/-- `i64::MAX`: chrono's digit scanner accumulates into an `i64` with
checked arithmetic and fails on overflow. -/
def maxI64 : Nat := 9223372036854775807

/-- chrono `scan::number`: consume 1 up to `maxW` ASCII digits (no bound
when `maxW = none`), failing when the first character is not a digit or the
accumulated value overflows `i64`. Returns the value and the rest. -/
def scanNumber (maxW : Option Nat) (l : List Char) : Option (Nat × List Char) :=
  let window := match maxW with | some w => l.take w | none => l
  let digs := window.takeWhile isDig
  if digs.isEmpty then none
  else if digsVal digs ≤ maxI64 then some (digsVal digs, l.drop digs.length) else none

/-- chrono numeric item for `%m %d %H %M %S`: skip leading whitespace, then
an unsigned number of at most 2 digits. -/
def scanNum2 (l : List Char) : Option (Nat × List Char) :=
  scanNumber (some 2) (l.dropWhile isWs)

/-- chrono numeric item for `%Y`: skip leading whitespace; a leading `-` or
`+` switches to unbounded width, otherwise at most 4 digits. -/
def scanYear (l : List Char) : Option (Int × List Char) :=
  let t := l.dropWhile isWs
  if t.head? = some '-' then (scanNumber none t.tail).map (fun p => (-(p.1 : Int), p.2))
  else if t.head? = some '+' then (scanNumber none t.tail).map (fun p => ((p.1 : Int), p.2))
  else (scanNumber (some 4) t).map (fun p => ((p.1 : Int), p.2))

/-- chrono literal item: the next character must be exactly `c`. -/
def expectChar (c : Char) (l : List Char) : Option (List Char) :=
  match l with
  | x :: r => if x = c then some r else none
  | [] => none

/-- A parsed date-time, interpreted as a UTC instant
(`Utc.from_utc_datetime`). `second = 60` encodes chrono's leap-second
representation (second 59 with nanosecond 1e9). -/
structure DT where
  year : Int
  month : Nat
  day : Nat
  hour : Nat
  minute : Nat
  second : Nat
deriving DecidableEq, Repr

/-- Proleptic-Gregorian leap-year rule used by chrono's calendar. -/
def isLeap (y : Int) : Bool := y % 4 = 0 && (y % 100 ≠ 0 || y % 400 = 0)

/-- Length of a month in the proleptic Gregorian calendar. -/
def daysInMonth (y : Int) (m : Nat) : Nat :=
  if m = 2 then (if isLeap y then 29 else 28)
  else if m = 4 || m = 6 || m = 9 || m = 11 then 30
  else 31

/-- chrono `Parsed::to_naive_datetime`: the parsed fields must form a valid
date (`NaiveDate::from_ymd_opt`, year range ±262143/262144) and time
(second 60 admitted as a leap second). -/
def mkDT (y : Int) (mo d h mi s : Nat) : Option DT :=
  if -262144 ≤ y && y ≤ 262143 && 1 ≤ mo && mo ≤ 12 && 1 ≤ d && d ≤ daysInMonth y mo
      && h ≤ 23 && mi ≤ 59 && s ≤ 60 then
    some ⟨y, mo, d, h, mi, s⟩
  else none

/-- `NaiveDateTime::parse_from_str(s, "%Y/%m/%dT%H:%M:%S")`: the item
sequence `%Y`, `/`, `%m`, `/`, `%d`, `T`, `%H`, `:`, `%M`, `:`, `%S`,
with trailing input an error (`TOO_LONG`). -/
def parseFmt (l : List Char) : Option DT := do
  let (y, l) ← scanYear l
  let l ← expectChar '/' l
  let (mo, l) ← scanNum2 l
  let l ← expectChar '/' l
  let (d, l) ← scanNum2 l
  let l ← expectChar 'T' l
  let (h, l) ← scanNum2 l
  let l ← expectChar ':' l
  let (mi, l) ← scanNum2 l
  let l ← expectChar ':' l
  let (s, l) ← scanNum2 l
  if l.isEmpty then mkDT y mo d h mi s else none

/-- Rust `s.trim_end_matches('z')`: remove every trailing `'z'`. -/
def trimEndZ (l : List Char) : List Char := (l.reverse.dropWhile (· = 'z')).reverse

/-- `parse_nonstandard_datetime` (src/sensor_data.rs lines 4-15) applied to
the already-extracted string: trim trailing `'z'` characters, then parse
with the fixed pattern; the result is a UTC instant. (The surrounding
deserializer additionally requires the JSON value to be a string; that step
lives in the record decoder below.) -/
def parse_nonstandard_datetime (s : String) : Option DT :=
  parseFmt (trimEndZ s.data)

/-- The closed status enumeration (src/sensor_data.rs lines 17-24). -/
inductive Status where
  | NotConfigured
  | InProgress
  | Success
  | Error
deriving DecidableEq, Repr

/-- `Status::from_u8` (src/sensor_data.rs lines 27-36). The argument is the
value of a Rust `u8`, i.e. already truncated modulo 256 by the caller's
`as u8` cast. -/
def Status.from_u8 (status_number : Nat) : Option Status :=
  match status_number with
  | 0 => some Status.NotConfigured
  | 1 => some Status.InProgress
  | 2 => some Status.Success
  | 3 => some Status.Error
  | _ => none

/-- A serde-json number: `int` covers the integer representations
(`u64`/`i64`), `float` carries a non-integral `f64` payload symbolically
(the decoder never computes with it). -/
inductive JNum where
  | int (i : Int)
  | float (mantissa : Int) (exponent : Int)
deriving DecidableEq, Repr

/-- The JSON value forms the sensor schema touches. -/
inductive Json where
  | null
  | bool (b : Bool)
  | num (n : JNum)
  | str (s : String)
deriving DecidableEq, Repr

/-- Decode errors of the record decoder. `missingField`/`typeMismatch`
correspond to the spec's `SchemaViolation(field, reason)`, `invalidStatus`
to `UnrecognizedStatusCode(n)` (the Rust message "Invalid status number"),
and `malformedTimestamp` to `MalformedTimestamp`. -/
inductive DecodeError where
  | missingField (field : String)
  | typeMismatch (field : String)
  | invalidStatus (n : Nat)
  | malformedTimestamp
deriving DecidableEq, Repr

instance {e a : Type} [DecidableEq e] [DecidableEq a] : DecidableEq (Except e a) := fun x y =>
  match x, y with
  | Except.ok u, Except.ok v =>
      if h : u = v then isTrue (by rw [h]) else isFalse (by intro hc; cases hc; exact h rfl)
  | Except.error u, Except.error v =>
      if h : u = v then isTrue (by rw [h]) else isFalse (by intro hc; cases hc; exact h rfl)
  | Except.ok _, Except.error _ => isFalse (by intro hc; cases hc)
  | Except.error _, Except.ok _ => isFalse (by intro hc; cases hc)

/-- serde-json `u64::deserialize`: the value must be a JSON integer in
`[0, 2^64)`. `field` only decorates the error. -/
def decodeU64 (field : String) (j : Json) : Except DecodeError Nat :=
  match j with
  | Json.num (JNum.int (Int.ofNat n)) =>
      if n < 18446744073709551616 then Except.ok n
      else Except.error (DecodeError.typeMismatch field)
  | _ => Except.error (DecodeError.typeMismatch field)

/-- `parse_status` (src/sensor_data.rs lines 38-45): deserialize a `u64`,
truncate with `as u8` (modulo 256), map through `Status::from_u8`, and fail
with the unrecognized-status-code error carrying the untruncated number
otherwise. -/
def parse_status (field : String) (j : Json) : Except DecodeError Status :=
  match decodeU64 field j with
  | Except.error e => Except.error e
  | Except.ok number =>
      match Status.from_u8 (number % 256) with
      | some s => Except.ok s
      | none => Except.error (DecodeError.invalidStatus number)

/-- `parse_optional_status` (src/sensor_data.rs lines 47-58): `null`
deserializes to `None`; a present number follows the `parse_status` rule
(`as u8` truncation included). -/
def parse_optional_status (field : String) (j : Json) : Except DecodeError (Option Status) :=
  match j with
  | Json.null => Except.ok none
  | _ =>
      match decodeU64 field j with
      | Except.error e => Except.error e
      | Except.ok number =>
          match Status.from_u8 (number % 256) with
          | some s => Except.ok (some s)
          | none => Except.error (DecodeError.invalidStatus number)

/-- Decimal digits, most significant first, with explicit fuel (structural
recursion so that evaluation is kernel-reducible; `fuel = n` is always
enough since the value shrinks by a factor of 10 each step). -/
def natDigitsAux (fuel : Nat) (n : Nat) : List Char :=
  match fuel with
  | 0 => []
  | f + 1 =>
      if n < 10 then [Char.ofNat (48 + n)]
      else natDigitsAux f (n / 10) ++ [Char.ofNat (48 + n % 10)]

/-- Decimal digits of `n`, most significant first, as ASCII characters. -/
def natDigits (n : Nat) : List Char := natDigitsAux n n

/-- Zero-pad the decimal digits of `n` to at least width `w`
(Rust format `{:0w}`). -/
def padDigits (w : Nat) (n : Nat) : List Char :=
  List.replicate (w - (natDigits n).length) '0' ++ natDigits n

/-- chrono `Debug` year rendering: `{:04}` inside 0..=9999, `{:+05}`
(explicit sign, zero-padded) outside. -/
def printYear (y : Int) : List Char :=
  if 0 <= y && y <= 9999 then padDigits 4 y.toNat
  else if y < 0 then '-' :: padDigits 4 (-y).toNat
  else '+' :: padDigits 4 y.toNat

/-- chrono serialization of `DateTime<Utc>`: the derived `Serialize` of
`LocalSensorData` writes the timestamp via chrono `Debug` formatting
(RFC 3339 with hyphens, `T`, colons and a trailing capital `Z`; the
sub-second part is empty for whole-second values). -/
def printDT (dt : DT) : List Char :=
  (printYear dt.year ++ '-' :: padDigits 2 dt.month ++ '-' :: padDigits 2 dt.day
    ++ 'T' :: padDigits 2 dt.hour ++ ':' :: padDigits 2 dt.minute
    ++ ':' :: padDigits 2 dt.second) ++ ['Z']

/-- Mandatory string field. -/
def reqStr (k : String) (v : Option Json) : Except DecodeError String :=
  match v with
  | some (Json.str s) => Except.ok s
  | some _ => Except.error (DecodeError.typeMismatch k)
  | none => Except.error (DecodeError.missingField k)

/-- Mandatory timestamp field: a string routed through
`parse_nonstandard_datetime`. -/
def reqDateTime (k : String) (v : Option Json) : Except DecodeError DT :=
  match v with
  | some (Json.str s) =>
      match parse_nonstandard_datetime s with
      | some dt => Except.ok dt
      | none => Except.error DecodeError.malformedTimestamp
  | some _ => Except.error (DecodeError.typeMismatch k)
  | none => Except.error (DecodeError.missingField k)

/-- Mandatory `u64` field. -/
def reqU64 (k : String) (v : Option Json) : Except DecodeError Nat :=
  match v with
  | some j => decodeU64 k j
  | none => Except.error (DecodeError.missingField k)

/-- Mandatory `u32` field (serde-json checks the `u64` range `[0, 2^32)`). -/
def reqU32 (k : String) (v : Option Json) : Except DecodeError Nat :=
  match v with
  | some (Json.num (JNum.int (Int.ofNat n))) =>
      if n < 4294967296 then Except.ok n
      else Except.error (DecodeError.typeMismatch k)
  | some _ => Except.error (DecodeError.typeMismatch k)
  | none => Except.error (DecodeError.missingField k)

/-- Mandatory `i64` field. -/
def reqI64 (k : String) (v : Option Json) : Except DecodeError Int :=
  match v with
  | some (Json.num (JNum.int (Int.ofNat n))) =>
      if n ≤ 9223372036854775807 then Except.ok (Int.ofNat n)
      else Except.error (DecodeError.typeMismatch k)
  | some (Json.num (JNum.int (Int.negSucc m))) =>
      if m ≤ 9223372036854775807 then Except.ok (Int.negSucc m)
      else Except.error (DecodeError.typeMismatch k)
  | some _ => Except.error (DecodeError.typeMismatch k)
  | none => Except.error (DecodeError.missingField k)

/-- Mandatory `f64` field: any JSON number, carried symbolically. -/
def reqF64 (k : String) (v : Option Json) : Except DecodeError JNum :=
  match v with
  | some (Json.num n) => Except.ok n
  | some _ => Except.error (DecodeError.typeMismatch k)
  | none => Except.error (DecodeError.missingField k)

/-- Optional string field: a missing key or `null` is `none`. -/
def optStr (k : String) (v : Option Json) : Except DecodeError (Option String) :=
  match v with
  | none => Except.ok none
  | some Json.null => Except.ok none
  | some (Json.str s) => Except.ok (some s)
  | some _ => Except.error (DecodeError.typeMismatch k)

/-- Optional `u64` field: a missing key or `null` is `none`. -/
def optU64 (k : String) (v : Option Json) : Except DecodeError (Option Nat) :=
  match v with
  | none => Except.ok none
  | some Json.null => Except.ok none
  | some j =>
      match decodeU64 k j with
      | Except.ok n => Except.ok (some n)
      | Except.error e => Except.error e

/-- Optional `f64` field: a missing key or `null` is `none`. -/
def optF64 (k : String) (v : Option Json) : Except DecodeError (Option JNum) :=
  match v with
  | none => Except.ok none
  | some Json.null => Except.ok none
  | some (Json.num n) => Except.ok (some n)
  | some _ => Except.error (DecodeError.typeMismatch k)

/-- Mandatory status field, routed through `parse_status`. -/
def reqStatus (k : String) (v : Option Json) : Except DecodeError Status :=
  match v with
  | some j => parse_status k j
  | none => Except.error (DecodeError.missingField k)

/-- Optional status field: serde `default` yields `none` for a missing key,
a present value is routed through `parse_optional_status`. -/
def optStatus (k : String) (v : Option Json) : Except DecodeError (Option Status) :=
  match v with
  | some j => parse_optional_status k j
  | none => Except.ok none

/-- `LocalSensorData` (src/sensor_data.rs lines 62-360): the decoded
snapshot record, fields in declaration order with their Rust types
(`f64` payloads carried symbolically as `JNum`). -/
structure LocalSensorData where
  sensor_id : String
  date_time : DT
  geo : String
  mem : Nat
  memfrag : Nat
  memfb : Nat
  memcs : Nat
  id : Nat
  lat : JNum
  lon : JNum
  logging_rate : Nat
  place : String
  version : String
  uptime : Nat
  rssi : Int
  period : Nat
  http_success : Nat
  http_sends : Nat
  hardware_version : String
  hardware_discovered : String
  wl_state : String
  ssid : String
  response : Option String
  response_date : Option String
  adc : JNum
  current_temp_f : Option Nat
  current_humidity : Option Nat
  current_dewpoint_f : Option Nat
  pressure : Option JNum
  current_temp_f_680 : Option JNum
  current_humidity_680 : Option JNum
  current_dewpoint_f_680 : Option JNum
  pressure_680 : Option JNum
  gas_680 : Option JNum
  p25aqic_b : Option String
  pm2_5_aqi_b : Option JNum
  pm1_0_cf_1_b : Option JNum
  p_0_3_um_b : Option JNum
  pm2_5_cf_1_b : Option JNum
  p_0_5_um_b : Option JNum
  pm10_0_cf_1_b : Option JNum
  p_1_0_um_b : Option JNum
  pm1_0_atm_b : Option JNum
  p_2_5_um_b : Option JNum
  pm2_5_atm_b : Option JNum
  p_5_0_um_b : Option JNum
  pm10_0_atm_b : Option JNum
  p_10_0_um_b : Option JNum
  p25aqic : Option String
  pm2_5_aqi : Option JNum
  pm1_0_cf_1 : Option JNum
  p_0_3_um : Option JNum
  pm2_5_cf_1 : Option JNum
  p_0_5_um : Option JNum
  pm10_0_cf_1 : Option JNum
  p_1_0_um : Option JNum
  pm1_0_atm : Option JNum
  p_2_5_um : Option JNum
  pm2_5_atm : Option JNum
  p_5_0_um : Option JNum
  pm10_0_atm : Option JNum
  p_10_0_um : Option JNum
  status_ntp : Status
  status_loc : Status
  status_upd : Status
  status_paa : Status
  status_tsa : Status
  status_tss_a : Status
  status_for_processor_1 : Option Status
  status_tsb : Status
  status_tss_b : Status
  status_for_processor_2 : Option Status
deriving DecidableEq, Repr

/-- serde-json object field access: first entry with the given key. -/
def getEntry (doc : List (String × Json)) (k : String) : Option Json :=
  match doc with
  | [] => none
  | p :: rest => if p.1 = k then some p.2 else getEntry rest k

/-- The source keys the record decoder reads, in declaration order
(serde `rename` attributes included); every other key is unknown to the
schema and ignored. -/
def knownKeys : List String := ["SensorId", "DateTime", "Geo", "Mem", "memfrag", "memfb", "memcs", "Id", "lat", "lon", "loggingrate", "place", "version", "uptime", "rssi", "period", "httpsuccess", "httpsends", "hardwareversion", "hardwarediscovered", "wlstate", "ssid", "response", "response_date", "Adc", "current_temp_f", "current_humidity", "current_dewpoint_f", "pressure", "current_temp_f_680", "current_humidity_680", "current_dewpoint_f_680", "pressure_680", "gas_680", "p25aqic_b", "pm2.5_aqi_b", "pm1_0_cf_1_b", "p_0_3_um_b", "pm2_5_cf_1_b", "p_0_5_um_b", "pm10_0_cf_1_b", "p_1_0_um_b", "pm1_0_atm_b", "p_2_5_um_b", "pm2_5_atm_b", "p_5_0_um_b", "pm10_0_atm_b", "p_10_0_um_b", "p25aqic", "pm2.5_aqi", "pm1_0_cf_1", "p_0_3_um", "pm2_5_cf_1", "p_0_5_um", "pm10_0_cf_1", "p_1_0_um", "pm1_0_atm", "p_2_5_um", "pm2_5_atm", "p_5_0_um", "pm10_0_atm", "p_10_0_um", "status_0", "status_1", "status_2", "status_3", "status_4", "status_5", "status_6", "status_7", "status_8", "status_10"]

/-- The field-by-field decode of `LocalSensorData` given the looked-up
value of each known key; any single field failure aborts the whole
decode (serde derive semantics, declaration order). -/
def decodeFields
    (v_sensor_id v_date_time v_geo v_mem : Option Json)
    (v_memfrag v_memfb v_memcs v_id : Option Json)
    (v_lat v_lon v_logging_rate v_place : Option Json)
    (v_version v_uptime v_rssi v_period : Option Json)
    (v_http_success v_http_sends v_hardware_version v_hardware_discovered : Option Json)
    (v_wl_state v_ssid v_response v_response_date : Option Json)
    (v_adc v_current_temp_f v_current_humidity v_current_dewpoint_f : Option Json)
    (v_pressure v_current_temp_f_680 v_current_humidity_680 v_current_dewpoint_f_680 : Option Json)
    (v_pressure_680 v_gas_680 v_p25aqic_b v_pm2_5_aqi_b : Option Json)
    (v_pm1_0_cf_1_b v_p_0_3_um_b v_pm2_5_cf_1_b v_p_0_5_um_b : Option Json)
    (v_pm10_0_cf_1_b v_p_1_0_um_b v_pm1_0_atm_b v_p_2_5_um_b : Option Json)
    (v_pm2_5_atm_b v_p_5_0_um_b v_pm10_0_atm_b v_p_10_0_um_b : Option Json)
    (v_p25aqic v_pm2_5_aqi v_pm1_0_cf_1 v_p_0_3_um : Option Json)
    (v_pm2_5_cf_1 v_p_0_5_um v_pm10_0_cf_1 v_p_1_0_um : Option Json)
    (v_pm1_0_atm v_p_2_5_um v_pm2_5_atm v_p_5_0_um : Option Json)
    (v_pm10_0_atm v_p_10_0_um v_status_ntp v_status_loc : Option Json)
    (v_status_upd v_status_paa v_status_tsa v_status_tss_a : Option Json)
    (v_status_for_processor_1 v_status_tsb v_status_tss_b v_status_for_processor_2 : Option Json)
    : Except DecodeError LocalSensorData := do
  let sensor_id ← reqStr "SensorId" v_sensor_id
  let date_time ← reqDateTime "DateTime" v_date_time
  let geo ← reqStr "Geo" v_geo
  let mem ← reqU64 "Mem" v_mem
  let memfrag ← reqU64 "memfrag" v_memfrag
  let memfb ← reqU64 "memfb" v_memfb
  let memcs ← reqU64 "memcs" v_memcs
  let id ← reqU64 "Id" v_id
  let lat ← reqF64 "lat" v_lat
  let lon ← reqF64 "lon" v_lon
  let logging_rate ← reqU64 "loggingrate" v_logging_rate
  let place ← reqStr "place" v_place
  let version ← reqStr "version" v_version
  let uptime ← reqU64 "uptime" v_uptime
  let rssi ← reqI64 "rssi" v_rssi
  let period ← reqU32 "period" v_period
  let http_success ← reqU64 "httpsuccess" v_http_success
  let http_sends ← reqU64 "httpsends" v_http_sends
  let hardware_version ← reqStr "hardwareversion" v_hardware_version
  let hardware_discovered ← reqStr "hardwarediscovered" v_hardware_discovered
  let wl_state ← reqStr "wlstate" v_wl_state
  let ssid ← reqStr "ssid" v_ssid
  let response ← optStr "response" v_response
  let response_date ← optStr "response_date" v_response_date
  let adc ← reqF64 "Adc" v_adc
  let current_temp_f ← optU64 "current_temp_f" v_current_temp_f
  let current_humidity ← optU64 "current_humidity" v_current_humidity
  let current_dewpoint_f ← optU64 "current_dewpoint_f" v_current_dewpoint_f
  let pressure ← optF64 "pressure" v_pressure
  let current_temp_f_680 ← optF64 "current_temp_f_680" v_current_temp_f_680
  let current_humidity_680 ← optF64 "current_humidity_680" v_current_humidity_680
  let current_dewpoint_f_680 ← optF64 "current_dewpoint_f_680" v_current_dewpoint_f_680
  let pressure_680 ← optF64 "pressure_680" v_pressure_680
  let gas_680 ← optF64 "gas_680" v_gas_680
  let p25aqic_b ← optStr "p25aqic_b" v_p25aqic_b
  let pm2_5_aqi_b ← optF64 "pm2.5_aqi_b" v_pm2_5_aqi_b
  let pm1_0_cf_1_b ← optF64 "pm1_0_cf_1_b" v_pm1_0_cf_1_b
  let p_0_3_um_b ← optF64 "p_0_3_um_b" v_p_0_3_um_b
  let pm2_5_cf_1_b ← optF64 "pm2_5_cf_1_b" v_pm2_5_cf_1_b
  let p_0_5_um_b ← optF64 "p_0_5_um_b" v_p_0_5_um_b
  let pm10_0_cf_1_b ← optF64 "pm10_0_cf_1_b" v_pm10_0_cf_1_b
  let p_1_0_um_b ← optF64 "p_1_0_um_b" v_p_1_0_um_b
  let pm1_0_atm_b ← optF64 "pm1_0_atm_b" v_pm1_0_atm_b
  let p_2_5_um_b ← optF64 "p_2_5_um_b" v_p_2_5_um_b
  let pm2_5_atm_b ← optF64 "pm2_5_atm_b" v_pm2_5_atm_b
  let p_5_0_um_b ← optF64 "p_5_0_um_b" v_p_5_0_um_b
  let pm10_0_atm_b ← optF64 "pm10_0_atm_b" v_pm10_0_atm_b
  let p_10_0_um_b ← optF64 "p_10_0_um_b" v_p_10_0_um_b
  let p25aqic ← optStr "p25aqic" v_p25aqic
  let pm2_5_aqi ← optF64 "pm2.5_aqi" v_pm2_5_aqi
  let pm1_0_cf_1 ← optF64 "pm1_0_cf_1" v_pm1_0_cf_1
  let p_0_3_um ← optF64 "p_0_3_um" v_p_0_3_um
  let pm2_5_cf_1 ← optF64 "pm2_5_cf_1" v_pm2_5_cf_1
  let p_0_5_um ← optF64 "p_0_5_um" v_p_0_5_um
  let pm10_0_cf_1 ← optF64 "pm10_0_cf_1" v_pm10_0_cf_1
  let p_1_0_um ← optF64 "p_1_0_um" v_p_1_0_um
  let pm1_0_atm ← optF64 "pm1_0_atm" v_pm1_0_atm
  let p_2_5_um ← optF64 "p_2_5_um" v_p_2_5_um
  let pm2_5_atm ← optF64 "pm2_5_atm" v_pm2_5_atm
  let p_5_0_um ← optF64 "p_5_0_um" v_p_5_0_um
  let pm10_0_atm ← optF64 "pm10_0_atm" v_pm10_0_atm
  let p_10_0_um ← optF64 "p_10_0_um" v_p_10_0_um
  let status_ntp ← reqStatus "status_0" v_status_ntp
  let status_loc ← reqStatus "status_1" v_status_loc
  let status_upd ← reqStatus "status_2" v_status_upd
  let status_paa ← reqStatus "status_3" v_status_paa
  let status_tsa ← reqStatus "status_4" v_status_tsa
  let status_tss_a ← reqStatus "status_5" v_status_tss_a
  let status_for_processor_1 ← optStatus "status_6" v_status_for_processor_1
  let status_tsb ← reqStatus "status_7" v_status_tsb
  let status_tss_b ← reqStatus "status_8" v_status_tss_b
  let status_for_processor_2 ← optStatus "status_10" v_status_for_processor_2
  Except.ok {
    sensor_id := sensor_id,
    date_time := date_time,
    geo := geo,
    mem := mem,
    memfrag := memfrag,
    memfb := memfb,
    memcs := memcs,
    id := id,
    lat := lat,
    lon := lon,
    logging_rate := logging_rate,
    place := place,
    version := version,
    uptime := uptime,
    rssi := rssi,
    period := period,
    http_success := http_success,
    http_sends := http_sends,
    hardware_version := hardware_version,
    hardware_discovered := hardware_discovered,
    wl_state := wl_state,
    ssid := ssid,
    response := response,
    response_date := response_date,
    adc := adc,
    current_temp_f := current_temp_f,
    current_humidity := current_humidity,
    current_dewpoint_f := current_dewpoint_f,
    pressure := pressure,
    current_temp_f_680 := current_temp_f_680,
    current_humidity_680 := current_humidity_680,
    current_dewpoint_f_680 := current_dewpoint_f_680,
    pressure_680 := pressure_680,
    gas_680 := gas_680,
    p25aqic_b := p25aqic_b,
    pm2_5_aqi_b := pm2_5_aqi_b,
    pm1_0_cf_1_b := pm1_0_cf_1_b,
    p_0_3_um_b := p_0_3_um_b,
    pm2_5_cf_1_b := pm2_5_cf_1_b,
    p_0_5_um_b := p_0_5_um_b,
    pm10_0_cf_1_b := pm10_0_cf_1_b,
    p_1_0_um_b := p_1_0_um_b,
    pm1_0_atm_b := pm1_0_atm_b,
    p_2_5_um_b := p_2_5_um_b,
    pm2_5_atm_b := pm2_5_atm_b,
    p_5_0_um_b := p_5_0_um_b,
    pm10_0_atm_b := pm10_0_atm_b,
    p_10_0_um_b := p_10_0_um_b,
    p25aqic := p25aqic,
    pm2_5_aqi := pm2_5_aqi,
    pm1_0_cf_1 := pm1_0_cf_1,
    p_0_3_um := p_0_3_um,
    pm2_5_cf_1 := pm2_5_cf_1,
    p_0_5_um := p_0_5_um,
    pm10_0_cf_1 := pm10_0_cf_1,
    p_1_0_um := p_1_0_um,
    pm1_0_atm := pm1_0_atm,
    p_2_5_um := p_2_5_um,
    pm2_5_atm := pm2_5_atm,
    p_5_0_um := p_5_0_um,
    pm10_0_atm := pm10_0_atm,
    p_10_0_um := p_10_0_um,
    status_ntp := status_ntp,
    status_loc := status_loc,
    status_upd := status_upd,
    status_paa := status_paa,
    status_tsa := status_tsa,
    status_tss_a := status_tss_a,
    status_for_processor_1 := status_for_processor_1,
    status_tsb := status_tsb,
    status_tss_b := status_tss_b,
    status_for_processor_2 := status_for_processor_2
  }

/-- Decode a JSON document into a `LocalSensorData` (the serde derive
with the custom per-field deserializers): look every known key up and
run the field decoders; unknown keys are never consulted. -/
def decode (d : List (String × Json)) : Except DecodeError LocalSensorData :=
  decodeFields
    (getEntry d "SensorId")
    (getEntry d "DateTime")
    (getEntry d "Geo")
    (getEntry d "Mem")
    (getEntry d "memfrag")
    (getEntry d "memfb")
    (getEntry d "memcs")
    (getEntry d "Id")
    (getEntry d "lat")
    (getEntry d "lon")
    (getEntry d "loggingrate")
    (getEntry d "place")
    (getEntry d "version")
    (getEntry d "uptime")
    (getEntry d "rssi")
    (getEntry d "period")
    (getEntry d "httpsuccess")
    (getEntry d "httpsends")
    (getEntry d "hardwareversion")
    (getEntry d "hardwarediscovered")
    (getEntry d "wlstate")
    (getEntry d "ssid")
    (getEntry d "response")
    (getEntry d "response_date")
    (getEntry d "Adc")
    (getEntry d "current_temp_f")
    (getEntry d "current_humidity")
    (getEntry d "current_dewpoint_f")
    (getEntry d "pressure")
    (getEntry d "current_temp_f_680")
    (getEntry d "current_humidity_680")
    (getEntry d "current_dewpoint_f_680")
    (getEntry d "pressure_680")
    (getEntry d "gas_680")
    (getEntry d "p25aqic_b")
    (getEntry d "pm2.5_aqi_b")
    (getEntry d "pm1_0_cf_1_b")
    (getEntry d "p_0_3_um_b")
    (getEntry d "pm2_5_cf_1_b")
    (getEntry d "p_0_5_um_b")
    (getEntry d "pm10_0_cf_1_b")
    (getEntry d "p_1_0_um_b")
    (getEntry d "pm1_0_atm_b")
    (getEntry d "p_2_5_um_b")
    (getEntry d "pm2_5_atm_b")
    (getEntry d "p_5_0_um_b")
    (getEntry d "pm10_0_atm_b")
    (getEntry d "p_10_0_um_b")
    (getEntry d "p25aqic")
    (getEntry d "pm2.5_aqi")
    (getEntry d "pm1_0_cf_1")
    (getEntry d "p_0_3_um")
    (getEntry d "pm2_5_cf_1")
    (getEntry d "p_0_5_um")
    (getEntry d "pm10_0_cf_1")
    (getEntry d "p_1_0_um")
    (getEntry d "pm1_0_atm")
    (getEntry d "p_2_5_um")
    (getEntry d "pm2_5_atm")
    (getEntry d "p_5_0_um")
    (getEntry d "pm10_0_atm")
    (getEntry d "p_10_0_um")
    (getEntry d "status_0")
    (getEntry d "status_1")
    (getEntry d "status_2")
    (getEntry d "status_3")
    (getEntry d "status_4")
    (getEntry d "status_5")
    (getEntry d "status_6")
    (getEntry d "status_7")
    (getEntry d "status_8")
    (getEntry d "status_10")

/-- serde serialization of a unit enum variant: the variant name string. -/
def jsonOfStatus (s : Status) : Json :=
  Json.str (match s with
    | Status.NotConfigured => "NotConfigured"
    | Status.InProgress => "InProgress"
    | Status.Success => "Success"
    | Status.Error => "Error")

/-- serde serialization of an `Option<String>` field: `None` is `null`. -/
def jsonOfOptStr (o : Option String) : Json :=
  match o with
  | none => Json.null
  | some s => Json.str s

/-- serde serialization of an `Option<u64>` field: `None` is `null`. -/
def jsonOfOptU64 (o : Option Nat) : Json :=
  match o with
  | none => Json.null
  | some n => Json.num (JNum.int n)

/-- serde serialization of an `Option<f64>` field: `None` is `null`. -/
def jsonOfOptNum (o : Option JNum) : Json :=
  match o with
  | none => Json.null
  | some n => Json.num n

/-- serde serialization of an `Option<Status>` field: `None` is `null`. -/
def jsonOfOptStatus (o : Option Status) : Json :=
  match o with
  | none => Json.null
  | some s => jsonOfStatus s

/-- The derived `Serialize` of `LocalSensorData`: one entry per field in
declaration order under the renamed keys. Note the timestamp is written
in chrono RFC 3339 form and statuses as variant-name strings (the derive
does not invert the custom deserializers). -/
def encode (v : LocalSensorData) : List (String × Json) :=
  [("SensorId", Json.str v.sensor_id),
  ("DateTime", Json.str (String.mk (printDT v.date_time))),
  ("Geo", Json.str v.geo),
  ("Mem", Json.num (JNum.int v.mem)),
  ("memfrag", Json.num (JNum.int v.memfrag)),
  ("memfb", Json.num (JNum.int v.memfb)),
  ("memcs", Json.num (JNum.int v.memcs)),
  ("Id", Json.num (JNum.int v.id)),
  ("lat", Json.num v.lat),
  ("lon", Json.num v.lon),
  ("loggingrate", Json.num (JNum.int v.logging_rate)),
  ("place", Json.str v.place),
  ("version", Json.str v.version),
  ("uptime", Json.num (JNum.int v.uptime)),
  ("rssi", Json.num (JNum.int v.rssi)),
  ("period", Json.num (JNum.int v.period)),
  ("httpsuccess", Json.num (JNum.int v.http_success)),
  ("httpsends", Json.num (JNum.int v.http_sends)),
  ("hardwareversion", Json.str v.hardware_version),
  ("hardwarediscovered", Json.str v.hardware_discovered),
  ("wlstate", Json.str v.wl_state),
  ("ssid", Json.str v.ssid),
  ("response", jsonOfOptStr v.response),
  ("response_date", jsonOfOptStr v.response_date),
  ("Adc", Json.num v.adc),
  ("current_temp_f", jsonOfOptU64 v.current_temp_f),
  ("current_humidity", jsonOfOptU64 v.current_humidity),
  ("current_dewpoint_f", jsonOfOptU64 v.current_dewpoint_f),
  ("pressure", jsonOfOptNum v.pressure),
  ("current_temp_f_680", jsonOfOptNum v.current_temp_f_680),
  ("current_humidity_680", jsonOfOptNum v.current_humidity_680),
  ("current_dewpoint_f_680", jsonOfOptNum v.current_dewpoint_f_680),
  ("pressure_680", jsonOfOptNum v.pressure_680),
  ("gas_680", jsonOfOptNum v.gas_680),
  ("p25aqic_b", jsonOfOptStr v.p25aqic_b),
  ("pm2.5_aqi_b", jsonOfOptNum v.pm2_5_aqi_b),
  ("pm1_0_cf_1_b", jsonOfOptNum v.pm1_0_cf_1_b),
  ("p_0_3_um_b", jsonOfOptNum v.p_0_3_um_b),
  ("pm2_5_cf_1_b", jsonOfOptNum v.pm2_5_cf_1_b),
  ("p_0_5_um_b", jsonOfOptNum v.p_0_5_um_b),
  ("pm10_0_cf_1_b", jsonOfOptNum v.pm10_0_cf_1_b),
  ("p_1_0_um_b", jsonOfOptNum v.p_1_0_um_b),
  ("pm1_0_atm_b", jsonOfOptNum v.pm1_0_atm_b),
  ("p_2_5_um_b", jsonOfOptNum v.p_2_5_um_b),
  ("pm2_5_atm_b", jsonOfOptNum v.pm2_5_atm_b),
  ("p_5_0_um_b", jsonOfOptNum v.p_5_0_um_b),
  ("pm10_0_atm_b", jsonOfOptNum v.pm10_0_atm_b),
  ("p_10_0_um_b", jsonOfOptNum v.p_10_0_um_b),
  ("p25aqic", jsonOfOptStr v.p25aqic),
  ("pm2.5_aqi", jsonOfOptNum v.pm2_5_aqi),
  ("pm1_0_cf_1", jsonOfOptNum v.pm1_0_cf_1),
  ("p_0_3_um", jsonOfOptNum v.p_0_3_um),
  ("pm2_5_cf_1", jsonOfOptNum v.pm2_5_cf_1),
  ("p_0_5_um", jsonOfOptNum v.p_0_5_um),
  ("pm10_0_cf_1", jsonOfOptNum v.pm10_0_cf_1),
  ("p_1_0_um", jsonOfOptNum v.p_1_0_um),
  ("pm1_0_atm", jsonOfOptNum v.pm1_0_atm),
  ("p_2_5_um", jsonOfOptNum v.p_2_5_um),
  ("pm2_5_atm", jsonOfOptNum v.pm2_5_atm),
  ("p_5_0_um", jsonOfOptNum v.p_5_0_um),
  ("pm10_0_atm", jsonOfOptNum v.pm10_0_atm),
  ("p_10_0_um", jsonOfOptNum v.p_10_0_um),
  ("status_0", jsonOfStatus v.status_ntp),
  ("status_1", jsonOfStatus v.status_loc),
  ("status_2", jsonOfStatus v.status_upd),
  ("status_3", jsonOfStatus v.status_paa),
  ("status_4", jsonOfStatus v.status_tsa),
  ("status_5", jsonOfStatus v.status_tss_a),
  ("status_6", jsonOfOptStatus v.status_for_processor_1),
  ("status_7", jsonOfStatus v.status_tsb),
  ("status_8", jsonOfStatus v.status_tss_b),
  ("status_10", jsonOfOptStatus v.status_for_processor_2)]

/-- Rust `str::split_once` on a single-character separator: split at the
first occurrence, `none` when the separator does not occur. -/
def splitOnceChar (sep : Char) : List Char → Option (List Char × List Char)
  | [] => none
  | c :: rest =>
      if c = sep then some ([], rest)
      else (splitOnceChar sep rest).map (fun p => (c :: p.1, p.2))

/-- Rust `str::split` on a single-character separator: the pieces between
occurrences, empty pieces preserved, and the empty string yielding one
empty piece. -/
def splitAllChar (sep : Char) : List Char → List (List Char)
  | [] => [[]]
  | c :: rest =>
      let r := splitAllChar sep rest
      if c = sep then [] :: r
      else
        match r with
        | h :: t => (c :: h) :: t
        | [] => [[c]]

/-- `hardware_on_the_board` (src/main.rs lines 41-47): split on the first
`+` to discard the version tag, then split the remainder on every `+`;
no `+` at all yields the empty list. -/
def hardware_on_the_board (hardware_discovered : String) : List String :=
  match splitOnceChar '+' hardware_discovered.data with
  | some p => (splitAllChar '+' p.2).map String.mk
  | none => []

/-- Interpretation of a `DT` as a UTC instant: seconds since the Unix
epoch (days via the standard civil-from-days inverse; `Int.tdiv` is used
where the algorithm relies on truncated division). Spec-side meaning of
"UTC instant", used to pin concrete parsed values. -/
def toEpochSeconds (dt : DT) : Int :=
  let y : Int := if dt.month ≤ 2 then dt.year - 1 else dt.year
  let era : Int := Int.tdiv (if 0 ≤ y then y else y - 399) 400
  let yoe : Int := y - era * 400
  let mp : Int := ((dt.month : Int) + 9) % 12
  let doy : Int := Int.tdiv (153 * mp + 2) 5 + (dt.day : Int) - 1
  let doe : Int := yoe * 365 + Int.tdiv yoe 4 - Int.tdiv yoe 100 + doy
  let days : Int := era * 146097 + doe - 719468
  days * 86400 + (dt.hour : Int) * 3600 + (dt.minute : Int) * 60 + (dt.second : Int)

/-- Modelled from the spec (for comparison with the code): strip exactly
one trailing `z` if present. The claim C4 describes the parser as doing
this before pattern-matching; the code's `trim_end_matches` strips all. -/
def specStripOneZ (s : String) : String :=
  match s.data.reverse with
  | 'z' :: rest => String.mk rest.reverse
  | _ => s

/-- Remove every entry with the given key from a document. -/
def removeKey (k : String) (d : List (String × Json)) : List (String × Json) :=
  d.filter (fun p => p.1 != k)

/-- Remove every entry whose key is listed in `ks` from a document. -/
def removeKeys (ks : List String) (d : List (String × Json)) : List (String × Json) :=
  d.filter (fun p => !(ks.contains p.1))

/-- State of the polling refresh loop of `PurpleAir` (src/main.rs): the
held snapshot, the snapshots delivered to the consumer so far, whether the
loop's task has panicked (`unwrap` on a failed fetch or decode), and
whether a next cycle is scheduled (a `sleep`-then-fetch future is
pending). -/
structure LoopState where
  sensor_data : Option LocalSensorData
  delivered : List LocalSensorData
  crashed : Bool
  scheduled : Bool
deriving DecidableEq, Repr

/-- One polling cycle of `PurpleAir::update` (src/main.rs lines 217-226):
the pending fetch resolves with a transport result carrying the response
document. The code calls `.unwrap()` on the fetch and on the decode, so
either failure panics the task: the loop terminates with nothing delivered
and no next cycle scheduled. On success the snapshot replaces the held
one, is delivered to the consumer, and the next sleep-then-fetch cycle is
scheduled. A crashed loop processes nothing further. -/
def updateCycle (st : LoopState) (outcome : Except Unit (List (String × Json))) : LoopState :=
  if st.crashed then st
  else
    match outcome with
    | Except.error _ => { st with crashed := true, scheduled := false }
    | Except.ok body =>
        match decode body with
        | Except.error _ => { st with crashed := true, scheduled := false }
        | Except.ok snap =>
            { sensor_data := some snap
              delivered := st.delivered ++ [snap]
              crashed := false
              scheduled := true }

/-- Run the polling loop over a sequence of fetch outcomes. -/
def runCycles (st : LoopState) (outcomes : List (Except Unit (List (String × Json)))) :
    LoopState :=
  outcomes.foldl updateCycle st

/-- A valid JSON fixture document: every mandatory key present, the
BME68x keys null, both PM channels present, `status_6` present and
`status_10` absent (older-firmware shape). -/
def fixtureDoc : List (String × Json) :=
  [("SensorId", Json.str "84:f3:eb:90:6:e1"),
   ("DateTime", Json.str "2025/06/29T22:44:14z"),
   ("Geo", Json.str "PurpleAir-90e1"),
   ("Mem", Json.num (JNum.int 19816)),
   ("memfrag", Json.num (JNum.int 21)),
   ("memfb", Json.num (JNum.int 16360)),
   ("memcs", Json.num (JNum.int 1168)),
   ("Id", Json.num (JNum.int 37)),
   ("lat", Json.num (JNum.float 405123 (-4 : Int))),
   ("lon", Json.num (JNum.float (-1054321) (-4 : Int))),
   ("loggingrate", Json.num (JNum.int 15)),
   ("place", Json.str "outside"),
   ("version", Json.str "7.04"),
   ("uptime", Json.num (JNum.int 93254)),
   ("rssi", Json.num (JNum.int (-62 : Int))),
   ("period", Json.num (JNum.int 120)),
   ("httpsuccess", Json.num (JNum.int 4125)),
   ("httpsends", Json.num (JNum.int 4128)),
   ("hardwareversion", Json.str "2.0"),
   ("hardwarediscovered", Json.str "2.0+BME280+PMSX003-A+PMSX003-B"),
   ("wlstate", Json.str "Connected"),
   ("ssid", Json.str "HomeNet"),
   ("response", Json.str "201"),
   ("response_date", Json.str "2025/06/29T22:43:09z"),
   ("Adc", Json.num (JNum.float 2 (-2 : Int))),
   ("current_temp_f", Json.num (JNum.int 81)),
   ("current_humidity", Json.num (JNum.int 40)),
   ("current_dewpoint_f", Json.num (JNum.int 54)),
   ("pressure", Json.num (JNum.float 100529 (-2 : Int))),
   ("current_temp_f_680", Json.null),
   ("current_humidity_680", Json.null),
   ("current_dewpoint_f_680", Json.null),
   ("pressure_680", Json.null),
   ("gas_680", Json.null),
   ("p25aqic_b", Json.str "rgb(19,230,0)"),
   ("pm2.5_aqi_b", Json.num (JNum.float 100 (-1 : Int))),
   ("pm1_0_cf_1_b", Json.num (JNum.float 101 (-1 : Int))),
   ("p_0_3_um_b", Json.num (JNum.float 102 (-1 : Int))),
   ("pm2_5_cf_1_b", Json.num (JNum.float 103 (-1 : Int))),
   ("p_0_5_um_b", Json.num (JNum.float 104 (-1 : Int))),
   ("pm10_0_cf_1_b", Json.num (JNum.float 105 (-1 : Int))),
   ("p_1_0_um_b", Json.num (JNum.float 106 (-1 : Int))),
   ("pm1_0_atm_b", Json.num (JNum.float 107 (-1 : Int))),
   ("p_2_5_um_b", Json.num (JNum.float 108 (-1 : Int))),
   ("pm2_5_atm_b", Json.num (JNum.float 109 (-1 : Int))),
   ("p_5_0_um_b", Json.num (JNum.float 110 (-1 : Int))),
   ("pm10_0_atm_b", Json.num (JNum.float 111 (-1 : Int))),
   ("p_10_0_um_b", Json.num (JNum.float 112 (-1 : Int))),
   ("p25aqic", Json.str "rgb(20,229,0)"),
   ("pm2.5_aqi", Json.num (JNum.float 113 (-1 : Int))),
   ("pm1_0_cf_1", Json.num (JNum.float 114 (-1 : Int))),
   ("p_0_3_um", Json.num (JNum.float 115 (-1 : Int))),
   ("pm2_5_cf_1", Json.num (JNum.float 116 (-1 : Int))),
   ("p_0_5_um", Json.num (JNum.float 117 (-1 : Int))),
   ("pm10_0_cf_1", Json.num (JNum.float 118 (-1 : Int))),
   ("p_1_0_um", Json.num (JNum.float 119 (-1 : Int))),
   ("pm1_0_atm", Json.num (JNum.float 120 (-1 : Int))),
   ("p_2_5_um", Json.num (JNum.float 121 (-1 : Int))),
   ("pm2_5_atm", Json.num (JNum.float 122 (-1 : Int))),
   ("p_5_0_um", Json.num (JNum.float 123 (-1 : Int))),
   ("pm10_0_atm", Json.num (JNum.float 124 (-1 : Int))),
   ("p_10_0_um", Json.num (JNum.float 125 (-1 : Int))),
   ("status_0", Json.num (JNum.int 2)),
   ("status_1", Json.num (JNum.int 2)),
   ("status_2", Json.num (JNum.int 2)),
   ("status_3", Json.num (JNum.int 2)),
   ("status_4", Json.num (JNum.int 0)),
   ("status_5", Json.num (JNum.int 0)),
   ("status_6", Json.num (JNum.int 2)),
   ("status_7", Json.num (JNum.int 0)),
   ("status_8", Json.num (JNum.int 0))]

/-- The snapshot value `fixtureDoc` decodes to. -/
def fixtureSnap : LocalSensorData :=
  { sensor_id := "84:f3:eb:90:6:e1",
    date_time := (⟨2025, 6, 29, 22, 44, 14⟩ : DT),
    geo := "PurpleAir-90e1",
    mem := 19816,
    memfrag := 21,
    memfb := 16360,
    memcs := 1168,
    id := 37,
    lat := JNum.float 405123 (-4 : Int),
    lon := JNum.float (-1054321) (-4 : Int),
    logging_rate := 15,
    place := "outside",
    version := "7.04",
    uptime := 93254,
    rssi := (-62 : Int),
    period := 120,
    http_success := 4125,
    http_sends := 4128,
    hardware_version := "2.0",
    hardware_discovered := "2.0+BME280+PMSX003-A+PMSX003-B",
    wl_state := "Connected",
    ssid := "HomeNet",
    response := some "201",
    response_date := some "2025/06/29T22:43:09z",
    adc := JNum.float 2 (-2 : Int),
    current_temp_f := some 81,
    current_humidity := some 40,
    current_dewpoint_f := some 54,
    pressure := some (JNum.float 100529 (-2 : Int)),
    current_temp_f_680 := none,
    current_humidity_680 := none,
    current_dewpoint_f_680 := none,
    pressure_680 := none,
    gas_680 := none,
    p25aqic_b := some "rgb(19,230,0)",
    pm2_5_aqi_b := some (JNum.float 100 (-1 : Int)),
    pm1_0_cf_1_b := some (JNum.float 101 (-1 : Int)),
    p_0_3_um_b := some (JNum.float 102 (-1 : Int)),
    pm2_5_cf_1_b := some (JNum.float 103 (-1 : Int)),
    p_0_5_um_b := some (JNum.float 104 (-1 : Int)),
    pm10_0_cf_1_b := some (JNum.float 105 (-1 : Int)),
    p_1_0_um_b := some (JNum.float 106 (-1 : Int)),
    pm1_0_atm_b := some (JNum.float 107 (-1 : Int)),
    p_2_5_um_b := some (JNum.float 108 (-1 : Int)),
    pm2_5_atm_b := some (JNum.float 109 (-1 : Int)),
    p_5_0_um_b := some (JNum.float 110 (-1 : Int)),
    pm10_0_atm_b := some (JNum.float 111 (-1 : Int)),
    p_10_0_um_b := some (JNum.float 112 (-1 : Int)),
    p25aqic := some "rgb(20,229,0)",
    pm2_5_aqi := some (JNum.float 113 (-1 : Int)),
    pm1_0_cf_1 := some (JNum.float 114 (-1 : Int)),
    p_0_3_um := some (JNum.float 115 (-1 : Int)),
    pm2_5_cf_1 := some (JNum.float 116 (-1 : Int)),
    p_0_5_um := some (JNum.float 117 (-1 : Int)),
    pm10_0_cf_1 := some (JNum.float 118 (-1 : Int)),
    p_1_0_um := some (JNum.float 119 (-1 : Int)),
    pm1_0_atm := some (JNum.float 120 (-1 : Int)),
    p_2_5_um := some (JNum.float 121 (-1 : Int)),
    pm2_5_atm := some (JNum.float 122 (-1 : Int)),
    p_5_0_um := some (JNum.float 123 (-1 : Int)),
    pm10_0_atm := some (JNum.float 124 (-1 : Int)),
    p_10_0_um := some (JNum.float 125 (-1 : Int)),
    status_ntp := Status.Success,
    status_loc := Status.Success,
    status_upd := Status.Success,
    status_paa := Status.Success,
    status_tsa := Status.NotConfigured,
    status_tss_a := Status.NotConfigured,
    status_for_processor_1 := some Status.Success,
    status_tsb := Status.NotConfigured,
    status_tss_b := Status.NotConfigured,
    status_for_processor_2 := none }

/-- The optional PM-channel keys (channels A and B). -/
def pmChannelKeys : List String :=
  ["p25aqic_b", "pm2.5_aqi_b", "pm1_0_cf_1_b", "p_0_3_um_b", "pm2_5_cf_1_b", "p_0_5_um_b", "pm10_0_cf_1_b", "p_1_0_um_b", "pm1_0_atm_b", "p_2_5_um_b", "pm2_5_atm_b", "p_5_0_um_b", "pm10_0_atm_b", "p_10_0_um_b", "p25aqic", "pm2.5_aqi", "pm1_0_cf_1", "p_0_3_um", "pm2_5_cf_1", "p_0_5_um", "pm10_0_cf_1", "p_1_0_um", "pm1_0_atm", "p_2_5_um", "pm2_5_atm", "p_5_0_um", "pm10_0_atm", "p_10_0_um"]

/-- `fixtureSnap` with every PM-channel field absent. -/
def fixtureSnapNoPM : LocalSensorData :=
  { fixtureSnap with
    p25aqic_b := none,
    pm2_5_aqi_b := none,
    pm1_0_cf_1_b := none,
    p_0_3_um_b := none,
    pm2_5_cf_1_b := none,
    p_0_5_um_b := none,
    pm10_0_cf_1_b := none,
    p_1_0_um_b := none,
    pm1_0_atm_b := none,
    p_2_5_um_b := none,
    pm2_5_atm_b := none,
    p_5_0_um_b := none,
    pm10_0_atm_b := none,
    p_10_0_um_b := none,
    p25aqic := none,
    pm2_5_aqi := none,
    pm1_0_cf_1 := none,
    p_0_3_um := none,
    pm2_5_cf_1 := none,
    p_0_5_um := none,
    pm10_0_cf_1 := none,
    p_1_0_um := none,
    pm1_0_atm := none,
    p_2_5_um := none,
    pm2_5_atm := none,
    p_5_0_um := none,
    pm10_0_atm := none,
    p_10_0_um := none }

/-- Reduction of the `u64` deserialization step on an in-range value. -/
theorem decodeU64_nat (field : String) (n : Nat) (h : n < 18446744073709551616) :
    decodeU64 field (Json.num (JNum.int (n : Int))) = Except.ok n := by
  simp only [decodeU64]
  rw [if_pos h]

/-- C1 counterexample: the claim says every integer outside {0,1,2,3} fails
the mandatory status decode, but the `as u8` cast makes 256 decode
successfully to `NotConfigured`. -/
theorem parse_status_accepts_256 :
    parse_status "status_0" (Json.num (JNum.int 256)) = Except.ok Status.NotConfigured := by
  decide

/-- C1 (amended): for every `u64` value `n`, the mandatory status decoder
truncates modulo 256 (`as u8`) and then applies the closed-set rule: it
returns the state numbered `n % 256` when that is in {0,1,2,3} and fails
with the unrecognized-status-code error (carrying the untruncated `n`)
otherwise. -/
theorem parse_status_mod256_of_u64 (field : String) (n : Nat)
    (h : n < 18446744073709551616) :
    parse_status field (Json.num (JNum.int (n : Int))) =
      if n % 256 = 0 then Except.ok Status.NotConfigured
      else if n % 256 = 1 then Except.ok Status.InProgress
      else if n % 256 = 2 then Except.ok Status.Success
      else if n % 256 = 3 then Except.ok Status.Error
      else Except.error (DecodeError.invalidStatus n) := by
  have hd := decodeU64_nat field n h
  obtain ⟨m, hm⟩ : ∃ m, n % 256 = m := ⟨_, rfl⟩
  rcases m with _ | _ | _ | _ | m
  · simp [parse_status, hd, hm, Status.from_u8]
  · simp [parse_status, hd, hm, Status.from_u8]
  · simp [parse_status, hd, hm, Status.from_u8]
  · simp [parse_status, hd, hm, Status.from_u8]
  · rw [if_neg (by omega), if_neg (by omega), if_neg (by omega), if_neg (by omega)]
    simp [parse_status, hd, hm, Status.from_u8]

/-- Witness for the amended C1 theorem at the concrete inputs 256 and 300. -/
theorem parse_status_mod256_of_u64_witness :
    parse_status "status_0" (Json.num (JNum.int ((256 : Nat) : Int))) = Except.ok Status.NotConfigured ∧
    parse_status "status_0" (Json.num (JNum.int ((300 : Nat) : Int))) = Except.error (DecodeError.invalidStatus 300) := by
  constructor
  · simpa using parse_status_mod256_of_u64 "status_0" 256 (by decide)
  · simpa using parse_status_mod256_of_u64 "status_0" 300 (by decide)

/-- C7 counterexample: the claim says a present value outside {0,1,2,3}
fails the optional status decode, but the `as u8` cast makes 259 decode
successfully to `some Error` (259 % 256 = 3). -/
theorem parse_optional_status_accepts_259 :
    parse_optional_status "status_6" (Json.num (JNum.int 259)) = Except.ok (some Status.Error) := by
  decide

/-- C7 (amended): the optional status decode yields "no value" with no
error for an absent key (serde `default`) and for an explicit `null`; a
present `u64` value follows exactly the mandatory rule, `as u8`
truncation included: it succeeds with the state numbered `n % 256` when
that is in {0,1,2,3} and fails with the unrecognized-status-code error
otherwise. -/
theorem parse_optional_status_rules (field : String) (n : Nat)
    (h : n < 18446744073709551616) :
    optStatus field none = Except.ok none ∧
    parse_optional_status field Json.null = Except.ok none ∧
    parse_optional_status field (Json.num (JNum.int (n : Int))) =
      (if n % 256 = 0 then Except.ok (some Status.NotConfigured)
       else if n % 256 = 1 then Except.ok (some Status.InProgress)
       else if n % 256 = 2 then Except.ok (some Status.Success)
       else if n % 256 = 3 then Except.ok (some Status.Error)
       else Except.error (DecodeError.invalidStatus n)) := by
  refine ⟨rfl, rfl, ?_⟩
  have hd := decodeU64_nat field n h
  obtain ⟨m, hm⟩ : ∃ m, n % 256 = m := ⟨_, rfl⟩
  rcases m with _ | _ | _ | _ | m
  · simp [parse_optional_status, hd, hm, Status.from_u8]
  · simp [parse_optional_status, hd, hm, Status.from_u8]
  · simp [parse_optional_status, hd, hm, Status.from_u8]
  · simp [parse_optional_status, hd, hm, Status.from_u8]
  · rw [if_neg (by omega), if_neg (by omega), if_neg (by omega), if_neg (by omega)]
    simp [parse_optional_status, hd, hm, Status.from_u8]

/-- Witness for the amended C7 theorem: absent key and present 257. -/
theorem parse_optional_status_rules_witness :
    optStatus "status_6" none = Except.ok none ∧
    parse_optional_status "status_6" (Json.num (JNum.int ((257 : Nat) : Int))) = Except.ok (some Status.InProgress) := by
  constructor
  · exact (parse_optional_status_rules "status_6" 257 (by decide)).1
  · simpa using (parse_optional_status_rules "status_6" 257 (by decide)).2.2

/-- C10: both status decoders first truncate a `u64` value modulo 256
(the `as u8` cast) and validate the truncated value: decode succeeds
exactly when `n % 256` is in {0,1,2,3}, returning the state numbered
`n % 256`, and fails with the unrecognized-status-code error otherwise. -/
theorem status_decoders_truncate_mod256 (field : String) (n : Nat)
    (h : n < 18446744073709551616) :
    parse_status field (Json.num (JNum.int (n : Int))) =
      (if n % 256 = 0 then Except.ok Status.NotConfigured
       else if n % 256 = 1 then Except.ok Status.InProgress
       else if n % 256 = 2 then Except.ok Status.Success
       else if n % 256 = 3 then Except.ok Status.Error
       else Except.error (DecodeError.invalidStatus n)) ∧
    parse_optional_status field (Json.num (JNum.int (n : Int))) =
      (if n % 256 = 0 then Except.ok (some Status.NotConfigured)
       else if n % 256 = 1 then Except.ok (some Status.InProgress)
       else if n % 256 = 2 then Except.ok (some Status.Success)
       else if n % 256 = 3 then Except.ok (some Status.Error)
       else Except.error (DecodeError.invalidStatus n)) := by
  have hd := decodeU64_nat field n h
  obtain ⟨m, hm⟩ : ∃ m, n % 256 = m := ⟨_, rfl⟩
  rcases m with _ | _ | _ | _ | m
  · constructor <;> simp [parse_status, parse_optional_status, hd, hm, Status.from_u8]
  · constructor <;> simp [parse_status, parse_optional_status, hd, hm, Status.from_u8]
  · constructor <;> simp [parse_status, parse_optional_status, hd, hm, Status.from_u8]
  · constructor <;> simp [parse_status, parse_optional_status, hd, hm, Status.from_u8]
  · constructor <;>
      (rw [if_neg (by omega), if_neg (by omega), if_neg (by omega), if_neg (by omega)];
       simp [parse_status, parse_optional_status, hd, hm, Status.from_u8])

/-- Witness for the C10 theorem: 256 decodes to `NotConfigured` and 259 to
`Error` in both decoders. -/
theorem status_decoders_truncate_mod256_witness :
    parse_status "status_0" (Json.num (JNum.int ((256 : Nat) : Int))) = Except.ok Status.NotConfigured ∧
    parse_optional_status "status_6" (Json.num (JNum.int ((259 : Nat) : Int))) = Except.ok (some Status.Error) := by
  constructor
  · simpa using (status_decoders_truncate_mod256 "status_0" 256 (by decide)).1
  · simpa using (status_decoders_truncate_mod256 "status_6" 259 (by decide)).2

/-- `split_once` finds nothing when the separator is absent. -/
theorem splitOnceChar_eq_none_of_not_mem {sep : Char} :
    ∀ {l : List Char}, sep ∉ l → splitOnceChar sep l = none := by
  intro l h
  induction l with
  | nil => rfl
  | cons x t ih =>
      have hx : ¬x = sep := fun hx => h (hx ▸ List.mem_cons_self x t)
      have ht : sep ∉ t := fun hm => h (List.mem_cons_of_mem x hm)
      simp [splitOnceChar, hx, ih ht]

/-- C6: the hardware-capability extractor yields the ordered module list on
the documented discovery string, and the empty list (never a failure — it
is a total function) on any string containing no `+` at all. -/
theorem hardware_on_the_board_spec :
    hardware_on_the_board "2.0+BME280+PMSX003-A+PMSX003-B"
        = ["BME280", "PMSX003-A", "PMSX003-B"] ∧
    ∀ s : String, '+' ∉ s.data → hardware_on_the_board s = [] := by
  constructor
  · decide
  · intro s h
    unfold hardware_on_the_board
    rw [splitOnceChar_eq_none_of_not_mem h]

/-- Witness for the C6 theorem at the spec's example `"2.0"`. -/
theorem hardware_on_the_board_spec_witness : hardware_on_the_board "2.0" = [] :=
  hardware_on_the_board_spec.2 "2.0" (by decide)

/-- C3 (the code defect the spec requires fixing): starting from an
initialized, scheduled loop, a failed fetch followed by a successful fetch
of a valid document delivers nothing — the `unwrap` panic on the first
failure crashes the loop, so the consumer receives zero snapshots (not
exactly one) and no further cycle is scheduled; a successful cycle alone
would have delivered its snapshot and rescheduled. -/
theorem pollingLoop_crashes_on_failed_cycle :
    runCycles ⟨some fixtureSnap, [], false, true⟩ [Except.error (), Except.ok fixtureDoc]
        = ⟨some fixtureSnap, [], true, false⟩ ∧
    runCycles ⟨some fixtureSnap, [], false, true⟩ [Except.ok fixtureDoc]
        = ⟨some fixtureSnap, [fixtureSnap], false, true⟩ := by
  exact ⟨rfl, rfl⟩

/-- C8: dropping the mandatory `SensorId` key from the valid fixture makes
the decode fail with the missing-field schema violation; dropping every
optional PM-channel key instead still decodes, with exactly those fields
absent; and decoding is all-or-nothing — for every document the decoder
returns either a single error or a complete snapshot, never a partial
one. -/
theorem decode_missing_mandatory_and_optional_pm :
    decode fixtureDoc = Except.ok fixtureSnap ∧
    decode (removeKey "SensorId" fixtureDoc) = Except.error (DecodeError.missingField "SensorId") ∧
    decode (removeKeys pmChannelKeys fixtureDoc) = Except.ok fixtureSnapNoPM ∧
    ∀ d : List (String × Json),
      (∃ e, decode d = Except.error e) ∨ ∃ snap, decode d = Except.ok snap := by
  refine ⟨rfl, rfl, rfl, fun d => ?_⟩
  cases h : decode d with
  | error e => exact Or.inl ⟨e, rfl⟩
  | ok snap => exact Or.inr ⟨snap, rfl⟩

/-- Lookup in a document none of whose keys is `k` yields nothing. -/
theorem getEntry_eq_none (e : List (String × Json)) (k : String)
    (h : ∀ p ∈ e, p.1 ≠ k) : getEntry e k = none := by
  induction e with
  | nil => rfl
  | cons p t ih =>
      have hp : ¬p.1 = k := h p (List.mem_cons_self p t)
      simp [getEntry, hp, ih (fun q hq => h q (List.mem_cons_of_mem p hq))]

/-- Appending entries whose keys all differ from `k` does not change the
lookup of `k`. -/
theorem getEntry_append_of_disjoint (d e : List (String × Json)) (k : String)
    (h : ∀ p ∈ e, p.1 ≠ k) : getEntry (d ++ e) k = getEntry d k := by
  induction d with
  | nil => simpa using getEntry_eq_none e k h
  | cons p t ih => by_cases hp : p.1 = k <;> simp [getEntry, List.cons_append, hp, ih]

/-- C9: adding entries under keys unknown to the schema to a document the
snapshot decoder accepts leaves the decode successful with the same
snapshot value (unknown keys are ignored). -/
theorem decode_ignores_unknown_keys (d e : List (String × Json)) (snap : LocalSensorData)
    (hu : ∀ p ∈ e, p.1 ∉ knownKeys) (hd : decode d = Except.ok snap) :
    decode (d ++ e) = Except.ok snap := by
  have key : ∀ k, k ∈ knownKeys → getEntry (d ++ e) k = getEntry d k := fun k hk =>
    getEntry_append_of_disjoint d e k (fun p hp hpk => hu p hp (hpk ▸ hk))
  rw [← hd]
  unfold decode
  rw [key "SensorId" (by decide),
      key "DateTime" (by decide),
      key "Geo" (by decide),
      key "Mem" (by decide),
      key "memfrag" (by decide),
      key "memfb" (by decide),
      key "memcs" (by decide),
      key "Id" (by decide),
      key "lat" (by decide),
      key "lon" (by decide),
      key "loggingrate" (by decide),
      key "place" (by decide),
      key "version" (by decide),
      key "uptime" (by decide),
      key "rssi" (by decide),
      key "period" (by decide),
      key "httpsuccess" (by decide),
      key "httpsends" (by decide),
      key "hardwareversion" (by decide),
      key "hardwarediscovered" (by decide),
      key "wlstate" (by decide),
      key "ssid" (by decide),
      key "response" (by decide),
      key "response_date" (by decide),
      key "Adc" (by decide),
      key "current_temp_f" (by decide),
      key "current_humidity" (by decide),
      key "current_dewpoint_f" (by decide),
      key "pressure" (by decide),
      key "current_temp_f_680" (by decide),
      key "current_humidity_680" (by decide),
      key "current_dewpoint_f_680" (by decide),
      key "pressure_680" (by decide),
      key "gas_680" (by decide),
      key "p25aqic_b" (by decide),
      key "pm2.5_aqi_b" (by decide),
      key "pm1_0_cf_1_b" (by decide),
      key "p_0_3_um_b" (by decide),
      key "pm2_5_cf_1_b" (by decide),
      key "p_0_5_um_b" (by decide),
      key "pm10_0_cf_1_b" (by decide),
      key "p_1_0_um_b" (by decide),
      key "pm1_0_atm_b" (by decide),
      key "p_2_5_um_b" (by decide),
      key "pm2_5_atm_b" (by decide),
      key "p_5_0_um_b" (by decide),
      key "pm10_0_atm_b" (by decide),
      key "p_10_0_um_b" (by decide),
      key "p25aqic" (by decide),
      key "pm2.5_aqi" (by decide),
      key "pm1_0_cf_1" (by decide),
      key "p_0_3_um" (by decide),
      key "pm2_5_cf_1" (by decide),
      key "p_0_5_um" (by decide),
      key "pm10_0_cf_1" (by decide),
      key "p_1_0_um" (by decide),
      key "pm1_0_atm" (by decide),
      key "p_2_5_um" (by decide),
      key "pm2_5_atm" (by decide),
      key "p_5_0_um" (by decide),
      key "pm10_0_atm" (by decide),
      key "p_10_0_um" (by decide),
      key "status_0" (by decide),
      key "status_1" (by decide),
      key "status_2" (by decide),
      key "status_3" (by decide),
      key "status_4" (by decide),
      key "status_5" (by decide),
      key "status_6" (by decide),
      key "status_7" (by decide),
      key "status_8" (by decide),
      key "status_10" (by decide)]

/-- Witness for the C9 theorem: the valid fixture document extended with
two unknown keys still decodes to the fixture snapshot. -/
theorem decode_ignores_unknown_keys_witness :
    decode (fixtureDoc ++ [("firmware_extra", Json.str "beta"), ("spare_channel", Json.null)])
        = Except.ok fixtureSnap :=
  decode_ignores_unknown_keys fixtureDoc
    [("firmware_extra", Json.str "beta"), ("spare_channel", Json.null)]
    fixtureSnap (by decide) (by rfl)

/-- The digit scanner only consumes a prefix: the rest is a sublist. -/
theorem scanNumber_rest_sublist {w : Option Nat} {l r : List Char} {n : Nat}
    (h : scanNumber w l = some (n, r)) : r.Sublist l := by
  simp only [scanNumber] at h
  split at h
  · exact absurd h (by simp)
  · split at h
    · simp only [Option.some.injEq, Prod.mk.injEq] at h
      obtain ⟨-, h2⟩ := h
      exact h2 ▸ List.drop_sublist _ _
    · exact absurd h (by simp)

/-- A literal item only consumes the head: the rest is a sublist. -/
theorem expectChar_rest_sublist {c : Char} {l r : List Char}
    (h : expectChar c l = some r) : r.Sublist l := by
  cases l with
  | nil => exact absurd h (by simp [expectChar])
  | cons x t =>
      simp only [expectChar] at h
      split at h
      · simp only [Option.some.injEq] at h
        exact h ▸ List.sublist_cons_self x t
      · exact absurd h (by simp)

/-- A two-digit numeric item only consumes a prefix. -/
theorem scanNum2_rest_sublist {l r : List Char} {n : Nat}
    (h : scanNum2 l = some (n, r)) : r.Sublist l :=
  (scanNumber_rest_sublist h).trans (List.dropWhile_sublist isWs)

/-- The year item only consumes a prefix. -/
theorem scanYear_rest_sublist {l r : List Char} {y : Int}
    (h : scanYear l = some (y, r)) : r.Sublist l := by
  have hdw : (l.dropWhile isWs).Sublist l := List.dropWhile_sublist isWs
  have htl : (l.dropWhile isWs).tail.Sublist l := (List.tail_sublist _).trans hdw
  simp only [scanYear] at h
  split at h
  · cases hs : scanNumber none (l.dropWhile isWs).tail with
    | none => rw [hs] at h; exact absurd h (by simp)
    | some p =>
        rw [hs] at h
        simp only [Option.map_some', Option.some.injEq, Prod.mk.injEq] at h
        exact h.2 ▸ (scanNumber_rest_sublist hs).trans htl
  · split at h
    · cases hs : scanNumber none (l.dropWhile isWs).tail with
      | none => rw [hs] at h; exact absurd h (by simp)
      | some p =>
          rw [hs] at h
          simp only [Option.map_some', Option.some.injEq, Prod.mk.injEq] at h
          exact h.2 ▸ (scanNumber_rest_sublist hs).trans htl
    · cases hs : scanNumber (some 4) (l.dropWhile isWs) with
      | none => rw [hs] at h; exact absurd h (by simp)
      | some p =>
          rw [hs] at h
          simp only [Option.map_some', Option.some.injEq, Prod.mk.injEq] at h
          exact h.2 ▸ (scanNumber_rest_sublist hs).trans hdw

/-- A literal item fails when its character is nowhere in the input. -/
theorem expectChar_eq_none_of_not_mem {c : Char} {l : List Char} (h : c ∉ l) :
    expectChar c l = none := by
  cases l with
  | nil => rfl
  | cons x t =>
      have hx : ¬x = c := fun hx => h (hx ▸ List.mem_cons_self x t)
      simp [expectChar, hx]

/-- The fixed pattern requires a literal `/`: any input containing no `/`
at all fails to parse. -/
theorem parseFmt_eq_none_of_no_slash {l : List Char} (h : '/' ∉ l) :
    parseFmt l = none := by
  cases hy : scanYear l with
  | none => simp only [parseFmt, Option.bind_eq_bind', hy, Option.some_bind, Option.none_bind]
  | some p =>
      obtain ⟨y, r⟩ := p
      have hr := scanYear_rest_sublist hy
      have he : expectChar '/' r = none :=
        expectChar_eq_none_of_not_mem (fun hc => h (hr.subset hc))
      simp only [parseFmt, Option.bind_eq_bind', hy, he, Option.some_bind, Option.none_bind]

set_option maxHeartbeats 1000000 in
/-- The fixed pattern requires a literal `T`: any input containing no `T`
at all fails to parse. -/
theorem parseFmt_eq_none_of_no_T {l : List Char} (h : 'T' ∉ l) :
    parseFmt l = none := by
  cases hy : scanYear l with
  | none => simp only [parseFmt, Option.bind_eq_bind', hy, Option.some_bind, Option.none_bind]
  | some p =>
    obtain ⟨y, r1⟩ := p
    have s1 := scanYear_rest_sublist hy
    cases h1 : expectChar '/' r1 with
    | none => simp only [parseFmt, Option.bind_eq_bind', hy, h1, Option.some_bind, Option.none_bind]
    | some r2 =>
      have s2 := (expectChar_rest_sublist h1).trans s1
      cases h2 : scanNum2 r2 with
      | none => simp only [parseFmt, Option.bind_eq_bind', hy, h1, h2, Option.some_bind, Option.none_bind]
      | some p2 =>
        obtain ⟨mo, r3⟩ := p2
        have s3 := (scanNum2_rest_sublist h2).trans s2
        cases h3 : expectChar '/' r3 with
        | none => simp only [parseFmt, Option.bind_eq_bind', hy, h1, h2, h3, Option.some_bind, Option.none_bind]
        | some r4 =>
          have s4 := (expectChar_rest_sublist h3).trans s3
          cases h4 : scanNum2 r4 with
          | none => simp only [parseFmt, Option.bind_eq_bind', hy, h1, h2, h3, h4, Option.some_bind, Option.none_bind]
          | some p4 =>
            obtain ⟨d, r5⟩ := p4
            have s5 := (scanNum2_rest_sublist h4).trans s4
            have h5 : expectChar 'T' r5 = none :=
              expectChar_eq_none_of_not_mem (fun hc => h (s5.subset hc))
            simp only [parseFmt, Option.bind_eq_bind', hy, h1, h2, h3, h4, h5, Option.some_bind, Option.none_bind]

/-- Characters survive the trailing-`z` trim only if they were in the
input. -/
theorem mem_of_mem_trimEndZ {c : Char} {l : List Char} (h : c ∈ trimEndZ l) :
    c ∈ l := by
  unfold trimEndZ at h
  rw [List.mem_reverse] at h
  exact List.mem_reverse.mp ((List.dropWhile_sublist _).subset h)

/-- C5: the timestamp parser yields exactly the UTC instant
2025-06-29T22:44:14Z (epoch second 1751237054) on the spec's example
input; every input containing no `/` (hyphen-separated dates included)
fails, and every input containing no `T` separator fails. -/
theorem parse_datetime_fixture_and_separators :
    parse_nonstandard_datetime "2025/06/29T22:44:14z" = some ⟨2025, 6, 29, 22, 44, 14⟩ ∧
    toEpochSeconds ⟨2025, 6, 29, 22, 44, 14⟩ = 1751237054 ∧
    (∀ s : String, '/' ∉ s.data → parse_nonstandard_datetime s = none) ∧
    (∀ s : String, 'T' ∉ s.data → parse_nonstandard_datetime s = none) := by
  refine ⟨by decide, by decide, fun s h => ?_, fun s h => ?_⟩
  · exact parseFmt_eq_none_of_no_slash (fun hc => h (mem_of_mem_trimEndZ hc))
  · exact parseFmt_eq_none_of_no_T (fun hc => h (mem_of_mem_trimEndZ hc))

/-- Witness for the C5 theorem: a hyphen-separated date and a missing `T`
both fail. -/
theorem parse_datetime_fixture_and_separators_witness :
    parse_nonstandard_datetime "2025-06-29T22:44:14z" = none ∧
    parse_nonstandard_datetime "2025/06/29 22:44:14z" = none :=
  ⟨parse_datetime_fixture_and_separators.2.2.1 "2025-06-29T22:44:14z" (by decide),
   parse_datetime_fixture_and_separators.2.2.2 "2025/06/29 22:44:14z" (by decide)⟩

/-- Appending `z` characters adds only to the trailing run the trimmer
removes. -/
theorem trimEndZ_append_replicate (l : List Char) (n : Nat) :
    trimEndZ (l ++ List.replicate n 'z') = trimEndZ l := by
  unfold trimEndZ
  rw [List.reverse_append, List.reverse_replicate]
  congr 1
  induction n with
  | zero => simp
  | succ k ih => simp [List.replicate_succ, List.dropWhile_cons, ih]

/-- C4 counterexample: on `"2025/06/29T22:44:14zz"` the code strips both
`z` characters and parses successfully, while the claim's
strip-exactly-one model leaves `"2025/06/29T22:44:14z"`, which does not
match the pattern — so the claim predicts failure where the code
succeeds. -/
theorem parse_datetime_double_z_accepted :
    parse_nonstandard_datetime "2025/06/29T22:44:14zz" = some ⟨2025, 6, 29, 22, 44, 14⟩ ∧
    parseFmt ((specStripOneZ "2025/06/29T22:44:14zz").data) = none :=
  ⟨by decide, by decide⟩

/-- C4 (amended): the parser strips all trailing `z` characters, not
exactly one — its result is invariant under appending any number of
trailing `z`s — and then parses the `z`-free remainder against the fixed
pattern as a UTC instant, failing when the remainder does not match. -/
theorem parse_datetime_trailing_z_invariant (s : String) (n : Nat) :
    parse_nonstandard_datetime (s ++ String.mk (List.replicate n 'z'))
      = parse_nonstandard_datetime s := by
  unfold parse_nonstandard_datetime
  have hdata : (s ++ String.mk (List.replicate n 'z')).data = s.data ++ List.replicate n 'z' := rfl
  rw [hdata, trimEndZ_append_replicate]

/-- Every character `natDigitsAux` emits is an ASCII digit. -/
theorem mem_natDigitsAux_bounds (fuel : Nat) :
    ∀ n, ∀ c ∈ natDigitsAux fuel n, 48 ≤ c.toNat ∧ c.toNat ≤ 57 := by
  induction fuel with
  | zero => intro n c hc; exact absurd hc (List.not_mem_nil c)
  | succ f ih =>
      intro n c hc
      by_cases hn : n < 10
      · simp only [natDigitsAux, if_pos hn, List.mem_singleton] at hc
        subst hc
        interval_cases n <;> decide
      · simp only [natDigitsAux, if_neg hn] at hc
        rcases List.mem_append.mp hc with h1 | h2
        · exact ih (n / 10) c h1
        · simp only [List.mem_singleton] at h2
          subst h2
          have hm : n % 10 < 10 := Nat.mod_lt _ (by omega)
          generalize n % 10 = m at hm
          interval_cases m <;> decide

/-- Every character `natDigits` emits is an ASCII digit. -/
theorem mem_natDigits_bounds (n : Nat) : ∀ c ∈ natDigits n, 48 ≤ c.toNat ∧ c.toNat ≤ 57 :=
  mem_natDigitsAux_bounds n n

/-- Every character `padDigits` emits is an ASCII digit. -/
theorem mem_padDigits_bounds (w n : Nat) : ∀ c ∈ padDigits w n, 48 ≤ c.toNat ∧ c.toNat ≤ 57 := by
  intro c hc
  unfold padDigits at hc
  rcases List.mem_append.mp hc with h1 | h2
  · rw [List.eq_of_mem_replicate h1]; decide
  · exact mem_natDigits_bounds n c h2

/-- `padDigits` never emits a slash. -/
theorem slash_not_mem_padDigits (w n : Nat) : '/' ∉ padDigits w n := fun hm => by
  have h := (mem_padDigits_bounds w n '/' hm).1
  revert h
  decide

/-- The printed year never contains a slash. -/
theorem slash_not_mem_printYear (y : Int) : '/' ∉ printYear y := by
  intro h
  unfold printYear at h
  split at h
  · exact slash_not_mem_padDigits _ _ h
  · split at h
    · rcases List.mem_cons.mp h with h1 | h2
      · exact absurd h1 (by decide)
      · exact slash_not_mem_padDigits _ _ h2
    · rcases List.mem_cons.mp h with h1 | h2
      · exact absurd h1 (by decide)
      · exact slash_not_mem_padDigits _ _ h2

/-- The chrono RFC 3339 rendering of a timestamp never contains a slash. -/
theorem slash_not_mem_printDT (dt : DT) : '/' ∉ printDT dt := by
  intro h
  have hyr := slash_not_mem_printYear dt.year
  have hpad := slash_not_mem_padDigits
  simp only [printDT, List.mem_append, List.mem_cons, List.mem_singleton] at h
  simp only [hyr, hpad, (by decide : ('/' : Char) ≠ '-'), (by decide : ('/' : Char) ≠ 'T'),
    (by decide : ('/' : Char) ≠ ':'), (by decide : ('/' : Char) ≠ 'Z'),
    List.not_mem_nil, or_false, false_or, or_self] at h

/-- The printed timestamp ends in a capital `Z`, which the lowercase-`z`
trimmer leaves alone. -/
theorem trimEndZ_printDT (dt : DT) : trimEndZ (printDT dt) = printDT dt := by
  unfold printDT trimEndZ
  rw [List.reverse_append, List.reverse_singleton, List.singleton_append,
    List.dropWhile_cons]
  rw [if_neg (by decide)]
  rw [List.reverse_cons, List.reverse_reverse]

/-- Decoding the serialized form of any timestamp fails: the rendering is
hyphen-separated, and the parser requires slashes. -/
theorem parse_printDT_none (dt : DT) :
    parse_nonstandard_datetime (String.mk (printDT dt)) = none := by
  unfold parse_nonstandard_datetime
  rw [show (String.mk (printDT dt)).data = printDT dt from rfl, trimEndZ_printDT]
  exact parseFmt_eq_none_of_no_slash (slash_not_mem_printDT dt)

/-- `Except` bind on a success continues. -/
theorem except_bind_ok {e a b : Type} (x : a) (f : a → Except e b) :
    (Except.ok x : Except e a) >>= f = f x := rfl

/-- `Except` bind on an error short-circuits. -/
theorem except_bind_error {e a b : Type} (err : e) (f : a → Except e b) :
    (Except.error err : Except e a) >>= f = Except.error err := rfl

/-- C2 counterexample: decode after encode is not the identity — on the
fixture snapshot it fails outright instead of returning the snapshot. -/
theorem decode_encode_fixture_not_id :
    decode (encode fixtureSnap) = Except.error DecodeError.malformedTimestamp ∧
    decode (encode fixtureSnap) ≠ Except.ok fixtureSnap := by
  constructor
  · rfl
  · decide

/-- The self-encoded document looks every key up to exactly the encoded
field value (the encoder writes each known key once, in order). -/
theorem decode_encode_args (v : LocalSensorData) :
    decode (encode v) = decodeFields
      (some (Json.str v.sensor_id))
      (some (Json.str (String.mk (printDT v.date_time))))
      (some (Json.str v.geo))
      (some (Json.num (JNum.int v.mem)))
      (some (Json.num (JNum.int v.memfrag)))
      (some (Json.num (JNum.int v.memfb)))
      (some (Json.num (JNum.int v.memcs)))
      (some (Json.num (JNum.int v.id)))
      (some (Json.num v.lat))
      (some (Json.num v.lon))
      (some (Json.num (JNum.int v.logging_rate)))
      (some (Json.str v.place))
      (some (Json.str v.version))
      (some (Json.num (JNum.int v.uptime)))
      (some (Json.num (JNum.int v.rssi)))
      (some (Json.num (JNum.int v.period)))
      (some (Json.num (JNum.int v.http_success)))
      (some (Json.num (JNum.int v.http_sends)))
      (some (Json.str v.hardware_version))
      (some (Json.str v.hardware_discovered))
      (some (Json.str v.wl_state))
      (some (Json.str v.ssid))
      (some (jsonOfOptStr v.response))
      (some (jsonOfOptStr v.response_date))
      (some (Json.num v.adc))
      (some (jsonOfOptU64 v.current_temp_f))
      (some (jsonOfOptU64 v.current_humidity))
      (some (jsonOfOptU64 v.current_dewpoint_f))
      (some (jsonOfOptNum v.pressure))
      (some (jsonOfOptNum v.current_temp_f_680))
      (some (jsonOfOptNum v.current_humidity_680))
      (some (jsonOfOptNum v.current_dewpoint_f_680))
      (some (jsonOfOptNum v.pressure_680))
      (some (jsonOfOptNum v.gas_680))
      (some (jsonOfOptStr v.p25aqic_b))
      (some (jsonOfOptNum v.pm2_5_aqi_b))
      (some (jsonOfOptNum v.pm1_0_cf_1_b))
      (some (jsonOfOptNum v.p_0_3_um_b))
      (some (jsonOfOptNum v.pm2_5_cf_1_b))
      (some (jsonOfOptNum v.p_0_5_um_b))
      (some (jsonOfOptNum v.pm10_0_cf_1_b))
      (some (jsonOfOptNum v.p_1_0_um_b))
      (some (jsonOfOptNum v.pm1_0_atm_b))
      (some (jsonOfOptNum v.p_2_5_um_b))
      (some (jsonOfOptNum v.pm2_5_atm_b))
      (some (jsonOfOptNum v.p_5_0_um_b))
      (some (jsonOfOptNum v.pm10_0_atm_b))
      (some (jsonOfOptNum v.p_10_0_um_b))
      (some (jsonOfOptStr v.p25aqic))
      (some (jsonOfOptNum v.pm2_5_aqi))
      (some (jsonOfOptNum v.pm1_0_cf_1))
      (some (jsonOfOptNum v.p_0_3_um))
      (some (jsonOfOptNum v.pm2_5_cf_1))
      (some (jsonOfOptNum v.p_0_5_um))
      (some (jsonOfOptNum v.pm10_0_cf_1))
      (some (jsonOfOptNum v.p_1_0_um))
      (some (jsonOfOptNum v.pm1_0_atm))
      (some (jsonOfOptNum v.p_2_5_um))
      (some (jsonOfOptNum v.pm2_5_atm))
      (some (jsonOfOptNum v.p_5_0_um))
      (some (jsonOfOptNum v.pm10_0_atm))
      (some (jsonOfOptNum v.p_10_0_um))
      (some (jsonOfStatus v.status_ntp))
      (some (jsonOfStatus v.status_loc))
      (some (jsonOfStatus v.status_upd))
      (some (jsonOfStatus v.status_paa))
      (some (jsonOfStatus v.status_tsa))
      (some (jsonOfStatus v.status_tss_a))
      (some (jsonOfOptStatus v.status_for_processor_1))
      (some (jsonOfStatus v.status_tsb))
      (some (jsonOfStatus v.status_tss_b))
      (some (jsonOfOptStatus v.status_for_processor_2)) := rfl

/-- C2 (amended): decoding an encoded snapshot always fails with the
malformed-timestamp error at the `DateTime` field — the derived encoder
writes the timestamp in hyphenated RFC 3339 form with a capital `Z`,
which the slash-pattern decoder rejects — so decode after encode is never
the identity. (The numeric status fields are likewise encoded as
variant-name strings the integer status decoder would reject, but the
decode aborts at the timestamp first.) -/
theorem decode_encode_always_malformed_timestamp (v : LocalSensorData) :
    decode (encode v) = Except.error DecodeError.malformedTimestamp := by
  rw [decode_encode_args]
  simp only [decodeFields, reqStr, except_bind_ok, reqDateTime, parse_printDT_none,
    except_bind_error]
